import Mathlib

/-!
Verification development for the `network_api_pytorch_mnist` TensorRT sample
(`samples/python/network_api_pytorch_mnist/sample.py`).

The sample is a linear orchestration script: it trains a small MNIST model,
extracts its weights, describes a fixed LeNet-style network graph to the
TensorRT builder API, compiles an engine with a 1 GiB workspace budget,
serializes the engine to `mnist.trt`, deserializes it again, allocates
buffers, runs one inference on a random test case and prints the test label
and the arg-max prediction.

The shallow embedding below models:
  - numeric weight tensors by their shapes (the numeric payload is never
    inspected by the repository's code, only passed through);
  - the TensorRT network-definition API calls actually used by the sample
    (`add_input`, `add_convolution`, `add_pooling`, `add_fully_connected`,
    `add_activation`, stride assignment, output renaming, `mark_output`)
    as pure state transformers on a `Network` value;
  - Python dict subscripting (`weights['conv1.weight']`) as an
    association-list lookup that fails with a KeyError-style message;
  - the engine as the pair (network description, workspace budget), with a
    concrete injective serialization codec standing in for the opaque
    engine byte blob;
  - the driver `main` as a pure function that also records the trace of
    driver stages it performs and the console lines it prints.

Library code of the repository that is not part of the sample file
(`common.py`, `model.py`, and the TensorRT runtime itself) is modelled from
the specification; each such definition carries a doc comment starting with
"Modelled from the spec:".
-/

/-- Element type of a tensor; the sample only ever uses `trt.float32`. -/
inductive DataType where
  | float32
  deriving DecidableEq, Repr

/-- Weight tensor, abstracted to its shape. The sample never reads the
numeric entries of a weight array; it only fetches arrays from the weight
dictionary and hands them to the builder API, so the embedding keeps the
shape as the observable payload. -/
structure Tensor where
  shape : List Nat
  deriving DecidableEq, Repr

/-- Weight Set: mapping from layer-parameter name to tensor, as produced by
`model.get_weights()` (a PyTorch state dict). Modelled as an association
list with first-match lookup, matching Python dict lookup semantics. -/
abbrev Weights := List (String × Tensor)

/-- Python dict subscripting `weights[key]`: returns the value or raises a
KeyError. `.cpu().numpy()` conversions are identities in this model. -/
def Weights.getItem (w : Weights) (key : String) : Except String Tensor :=
  match w.lookup key with
  | some t => Except.ok t
  | none => Except.error ("KeyError: " ++ key)

/-- Pooling type; the sample only uses `trt.PoolingType.MAX`. -/
inductive PoolingType where
  | max
  | average
  deriving DecidableEq, Repr

/-- Activation type; the sample only uses `trt.ActivationType.RELU`. -/
inductive ActivationType where
  | relu
  deriving DecidableEq, Repr

/-- Reference to a tensor inside a network: either the i-th added input
tensor or the (single) output of the i-th added layer. -/
inductive TensorRef where
  | input (idx : Nat)
  | layerOutput (idx : Nat)
  deriving DecidableEq, Repr

/-- Layer specification: the layer kinds the sample adds, with the
parameters the builder API receives (including the stride, which TensorRT
initializes to a default and the sample then assigns). -/
inductive LayerKind where
  | convolution (num_output_maps : Nat) (kernel_shape : Nat × Nat)
      (stride : Nat × Nat) (kernel : Tensor) (bias : Tensor)
  | pooling (poolType : PoolingType) (window_size : Nat × Nat) (stride : Nat × Nat)
  | fully_connected (num_outputs : Nat) (kernel : Tensor) (bias : Tensor)
  | activation (actType : ActivationType)
  deriving DecidableEq, Repr

/-- One layer of a network graph description: its input tensor, its kind and
the name of its output tensor (empty string for the TensorRT default
auto-generated name; the sample renames exactly one output to "prob"). -/
structure Layer where
  input : TensorRef
  kind : LayerKind
  outputName : String
  deriving DecidableEq, Repr

/-- Declared network input: name, element type, shape. -/
structure InputSpec where
  name : String
  dtype : DataType
  shape : List Nat
  deriving DecidableEq, Repr

/-- Network Graph Description being built through the TensorRT
network-definition API: the creation flag, added inputs, added layers (in
order) and the tensors marked as outputs (in order). -/
structure Network where
  explicit_batch : Bool
  inputs : List InputSpec
  layers : List Layer
  markedOutputs : List TensorRef
  deriving DecidableEq, Repr

/-- Constant `ModelData.INPUT_NAME` of the sample. -/
def ModelData.INPUT_NAME : String := "data"

/-- Constant `ModelData.INPUT_SHAPE` of the sample. -/
def ModelData.INPUT_SHAPE : List Nat := [1, 1, 28, 28]

/-- Constant `ModelData.OUTPUT_NAME` of the sample. -/
def ModelData.OUTPUT_NAME : String := "prob"

/-- Constant `ModelData.OUTPUT_SIZE` of the sample. -/
def ModelData.OUTPUT_SIZE : Nat := 10

/-- Constant `ModelData.DTYPE` of the sample (`trt.float32`). -/
def ModelData.DTYPE : DataType := DataType.float32

/-- Builder call `network.add_input(name, dtype, shape)`: appends an input
declaration and returns a reference to the new input tensor. -/
def Network.add_input (net : Network) (nm : String) (dtype : DataType)
    (shape : List Nat) : Network × TensorRef :=
  ({ net with inputs := net.inputs ++ [⟨nm, dtype, shape⟩] },
   TensorRef.input net.inputs.length)

/-- Builder call `network.add_convolution(input, num_output_maps,
kernel_shape, kernel, bias)`: appends a convolution layer (TensorRT default
stride is (1,1)) and returns the index of the new layer. -/
def Network.add_convolution (net : Network) (inp : TensorRef)
    (num_output_maps : Nat) (kernel_shape : Nat × Nat) (kernel bias : Tensor) :
    Network × Nat :=
  ({ net with layers := net.layers ++
      [⟨inp, LayerKind.convolution num_output_maps kernel_shape (1, 1) kernel bias, ""⟩] },
   net.layers.length)

/-- Builder call `network.add_pooling(input, type, window_size)`: appends a
pooling layer (TensorRT default stride equals the window size) and returns
the index of the new layer. -/
def Network.add_pooling (net : Network) (inp : TensorRef) (poolType : PoolingType)
    (window_size : Nat × Nat) : Network × Nat :=
  ({ net with layers := net.layers ++
      [⟨inp, LayerKind.pooling poolType window_size window_size, ""⟩] },
   net.layers.length)

/-- Builder call `network.add_fully_connected(input, num_outputs, kernel,
bias)`: appends a fully-connected layer and returns its index. -/
def Network.add_fully_connected (net : Network) (inp : TensorRef)
    (num_outputs : Nat) (kernel bias : Tensor) : Network × Nat :=
  ({ net with layers := net.layers ++
      [⟨inp, LayerKind.fully_connected num_outputs kernel bias, ""⟩] },
   net.layers.length)

/-- Builder call `network.add_activation(input, type)`: appends an
activation layer and returns its index. -/
def Network.add_activation (net : Network) (inp : TensorRef)
    (actType : ActivationType) : Network × Nat :=
  ({ net with layers := net.layers ++ [⟨inp, LayerKind.activation actType, ""⟩] },
   net.layers.length)

/-- Builder call `layer.get_output(0)` for the layer with the given index:
all layers used by the sample have a single output tensor. -/
def Network.get_output (_net : Network) (layerIdx : Nat) (_i : Nat) : TensorRef :=
  TensorRef.layerOutput layerIdx

/-- Helper updating the n-th element of a list in place. -/
def modifyNth (f : α → α) : Nat → List α → List α
  | _, [] => []
  | 0, a :: as => f a :: as
  | n + 1, a :: as => a :: modifyNth f n as

/-- Assignment `layer.stride = s` on a layer object. -/
def Layer.withStride (l : Layer) (s : Nat × Nat) : Layer :=
  { l with kind :=
      match l.kind with
      | LayerKind.convolution m ks _ k b => LayerKind.convolution m ks s k b
      | LayerKind.pooling t w _ => LayerKind.pooling t w s
      | k => k }

/-- Assignment `layer.stride = s` for the layer with the given index. -/
def Network.set_stride (net : Network) (layerIdx : Nat) (s : Nat × Nat) : Network :=
  { net with layers := modifyNth (fun l => l.withStride s) layerIdx net.layers }

/-- Assignment `layer.get_output(0).name = nm` for the layer with the given
index. -/
def Network.set_output_name (net : Network) (layerIdx : Nat) (nm : String) : Network :=
  { net with layers := modifyNth (fun l => { l with outputName := nm }) layerIdx net.layers }

/-- Builder call `network.mark_output(tensor)`: marks a tensor as a network
output. -/
def Network.mark_output (net : Network) (t : TensorRef) : Network :=
  { net with markedOutputs := net.markedOutputs ++ [t] }

/-- Name of the tensor a reference denotes (empty string when unnamed or out
of range). -/
def Network.nameOf (net : Network) (r : TensorRef) : String :=
  match r with
  | TensorRef.input i => ((net.inputs.get? i).map InputSpec.name).getD ""
  | TensorRef.layerOutput i => ((net.layers.get? i).map Layer.outputName).getD ""

/-- Embedding of `populate_network(network, weights)` from the sample:
declares the input, fetches the eight named weight tensors from the weight
dictionary (failing with a KeyError if one is absent), adds the layer
sequence conv(20,5x5,stride 1) / maxpool(2x2,stride 2) / conv(50,5x5,
stride 1) / maxpool(2x2,stride 2) / fc(500) / relu / fc(10), renames the
last output to "prob" and marks it as the network output. No shape of any
fetched tensor is inspected. -/
def populate_network (network : Network) (weights : Weights) : Except String Network := do
  let (net1, input_tensor) :=
    network.add_input ModelData.INPUT_NAME ModelData.DTYPE ModelData.INPUT_SHAPE
  let conv1_w ← weights.getItem "conv1.weight"
  let conv1_b ← weights.getItem "conv1.bias"
  let (net2, conv1) := net1.add_convolution input_tensor 20 (5, 5) conv1_w conv1_b
  let net3 := net2.set_stride conv1 (1, 1)
  let (net4, pool1) := net3.add_pooling (net3.get_output conv1 0) PoolingType.max (2, 2)
  let net5 := net4.set_stride pool1 (2, 2)
  let conv2_w ← weights.getItem "conv2.weight"
  let conv2_b ← weights.getItem "conv2.bias"
  let (net6, conv2) := net5.add_convolution (net5.get_output pool1 0) 50 (5, 5) conv2_w conv2_b
  let net7 := net6.set_stride conv2 (1, 1)
  let (net8, pool2) := net7.add_pooling (net7.get_output conv2 0) PoolingType.max (2, 2)
  let net9 := net8.set_stride pool2 (2, 2)
  let fc1_w ← weights.getItem "fc1.weight"
  let fc1_b ← weights.getItem "fc1.bias"
  let (net10, fc1) := net9.add_fully_connected (net9.get_output pool2 0) 500 fc1_w fc1_b
  let (net11, relu1) := net10.add_activation (net10.get_output fc1 0) ActivationType.relu
  let fc2_w ← weights.getItem "fc2.weight"
  let fc2_b ← weights.getItem "fc2.bias"
  let (net12, fc2) :=
    net11.add_fully_connected (net11.get_output relu1 0) ModelData.OUTPUT_SIZE fc2_w fc2_b
  let net13 := net12.set_output_name fc2 ModelData.OUTPUT_NAME
  pure (net13.mark_output (net13.get_output fc2 0))

/-- Driver stage, used to record the trace of stages the script performs. -/
inductive Step where
  | train
  | extractWeights
  | buildGraph
  | compileEngine
  | serializeEngine
  | deserializeEngine
  | allocateBuffers
  | drawTestCase
  | runInference
  | argmaxPredict
  | printLine
  deriving DecidableEq, Repr

/-- Modelled from the spec: `common.EXPLICIT_BATCH` (the network-creation
flag of `common.py`, which is not part of the sample file). -/
def EXPLICIT_BATCH : Bool := true

/-- Builder call `builder.create_network(flags)`: a fresh, empty network. -/
def create_network (flags : Bool) : Network :=
  { explicit_batch := flags, inputs := [], layers := [], markedOutputs := [] }

/-- Builder configuration; the sample sets only `max_workspace_size`. -/
structure BuilderConfig where
  max_workspace_size : Nat
  deriving DecidableEq, Repr

/-- Modelled from the spec: `common.GiB(val)` of `common.py` (not part of
the sample file), computing `val * 1 << 30` bytes. -/
def GiB (val : Nat) : Nat := (val * 1) <<< 30

/-- Engine Artifact: the compiled engine, determined by the network graph
description it was compiled from and the workspace budget it was given.
The black-box optimization itself (layer fusion, autotuning) has no
observable effect in this model beyond these two inputs. -/
structure Engine where
  network : Network
  max_workspace_size : Nat
  deriving DecidableEq, Repr

/-- Modelled from the spec: `builder.build_engine(network, config)` — the
external engine compiler, producing an engine artifact for exactly the
given graph description and workspace budget. -/
def builder_build_engine (net : Network) (config : BuilderConfig) : Engine :=
  { network := net, max_workspace_size := config.max_workspace_size }

/-- Encoder for one natural number. -/
def encNat (n : Nat) : List Nat := [n]

/-- Decoder for one natural number, returning the remainder. -/
def decNat : List Nat → Option (Nat × List Nat)
  | [] => none
  | n :: rest => some (n, rest)

/-- Encoder for a pair of naturals. -/
def encNatPair (p : Nat × Nat) : List Nat := [p.1, p.2]

/-- Decoder for a pair of naturals. -/
def decNatPair : List Nat → Option ((Nat × Nat) × List Nat)
  | a :: b :: rest => some ((a, b), rest)
  | _ => none

/-- Encoder for a boolean. -/
def encBool (b : Bool) : List Nat := [cond b 1 0]

/-- Decoder for a boolean. -/
def decBool : List Nat → Option (Bool × List Nat)
  | 0 :: rest => some (false, rest)
  | 1 :: rest => some (true, rest)
  | _ => none

/-- Encoder for a string: length followed by the character codes. -/
def encString (s : String) : List Nat :=
  s.data.length :: s.data.map Char.toNat

/-- Decoder for a string. -/
def decString (l : List Nat) : Option (String × List Nat) :=
  match l with
  | [] => none
  | n :: rest =>
    if n ≤ rest.length then
      some (String.mk ((rest.take n).map Char.ofNat), rest.drop n)
    else none

/-- Length-prefixed encoder for a list, given an element encoder. -/
def encList (f : α → List Nat) (xs : List α) : List Nat :=
  xs.length :: xs.foldr (fun a acc => f a ++ acc) []

/-- Decoder for a known number of elements, given an element decoder. -/
def decListAux (g : List Nat → Option (α × List Nat)) :
    Nat → List Nat → Option (List α × List Nat)
  | 0, rest => some ([], rest)
  | Nat.succ n, rest =>
    match g rest with
    | none => none
    | some (a, rest2) =>
      match decListAux g n rest2 with
      | none => none
      | some (as, rest3) => some (a :: as, rest3)

/-- Decoder for a length-prefixed list. -/
def decList (g : List Nat → Option (α × List Nat)) (l : List Nat) :
    Option (List α × List Nat) :=
  match l with
  | [] => none
  | n :: rest => decListAux g n rest

/-- Encoder for a data type tag. -/
def encDataType : DataType → List Nat
  | DataType.float32 => [0]

/-- Decoder for a data type tag. -/
def decDataType : List Nat → Option (DataType × List Nat)
  | 0 :: rest => some (DataType.float32, rest)
  | _ => none

/-- Encoder for a pooling type tag. -/
def encPoolingType : PoolingType → List Nat
  | PoolingType.max => [0]
  | PoolingType.average => [1]

/-- Decoder for a pooling type tag. -/
def decPoolingType : List Nat → Option (PoolingType × List Nat)
  | 0 :: rest => some (PoolingType.max, rest)
  | 1 :: rest => some (PoolingType.average, rest)
  | _ => none

/-- Encoder for an activation type tag. -/
def encActivationType : ActivationType → List Nat
  | ActivationType.relu => [0]

/-- Decoder for an activation type tag. -/
def decActivationType : List Nat → Option (ActivationType × List Nat)
  | 0 :: rest => some (ActivationType.relu, rest)
  | _ => none

/-- Encoder for a tensor reference. -/
def encTensorRef : TensorRef → List Nat
  | TensorRef.input i => [0, i]
  | TensorRef.layerOutput i => [1, i]

/-- Decoder for a tensor reference. -/
def decTensorRef : List Nat → Option (TensorRef × List Nat)
  | 0 :: i :: rest => some (TensorRef.input i, rest)
  | 1 :: i :: rest => some (TensorRef.layerOutput i, rest)
  | _ => none

/-- Encoder for a tensor (its shape). -/
def encTensor (t : Tensor) : List Nat := encList encNat t.shape

/-- Decoder for a tensor. -/
def decTensor (l : List Nat) : Option (Tensor × List Nat) :=
  match decList decNat l with
  | some (s, rest) => some (⟨s⟩, rest)
  | none => none

/-- Encoder for a layer kind, with a leading constructor tag. -/
def encLayerKind : LayerKind → List Nat
  | LayerKind.convolution m ks s k b =>
    0 :: (encNat m ++ encNatPair ks ++ encNatPair s ++ encTensor k ++ encTensor b)
  | LayerKind.pooling t w s =>
    1 :: (encPoolingType t ++ encNatPair w ++ encNatPair s)
  | LayerKind.fully_connected n k b =>
    2 :: (encNat n ++ encTensor k ++ encTensor b)
  | LayerKind.activation t =>
    3 :: encActivationType t

/-- Decoder for a layer kind. -/
def decLayerKind : List Nat → Option (LayerKind × List Nat)
  | 0 :: rest =>
    match decNat rest with
    | none => none
    | some (m, r1) =>
      match decNatPair r1 with
      | none => none
      | some (ks, r2) =>
        match decNatPair r2 with
        | none => none
        | some (s, r3) =>
          match decTensor r3 with
          | none => none
          | some (k, r4) =>
            match decTensor r4 with
            | none => none
            | some (b, r5) => some (LayerKind.convolution m ks s k b, r5)
  | 1 :: rest =>
    match decPoolingType rest with
    | none => none
    | some (t, r1) =>
      match decNatPair r1 with
      | none => none
      | some (w, r2) =>
        match decNatPair r2 with
        | none => none
        | some (s, r3) => some (LayerKind.pooling t w s, r3)
  | 2 :: rest =>
    match decNat rest with
    | none => none
    | some (n, r1) =>
      match decTensor r1 with
      | none => none
      | some (k, r2) =>
        match decTensor r2 with
        | none => none
        | some (b, r3) => some (LayerKind.fully_connected n k b, r3)
  | 3 :: rest =>
    match decActivationType rest with
    | none => none
    | some (t, r1) => some (LayerKind.activation t, r1)
  | _ => none

/-- Encoder for an input declaration. -/
def encInputSpec (s : InputSpec) : List Nat :=
  encString s.name ++ encDataType s.dtype ++ encList encNat s.shape

/-- Decoder for an input declaration. -/
def decInputSpec (l : List Nat) : Option (InputSpec × List Nat) :=
  match decString l with
  | none => none
  | some (nm, r1) =>
    match decDataType r1 with
    | none => none
    | some (d, r2) =>
      match decList decNat r2 with
      | none => none
      | some (sh, r3) => some (⟨nm, d, sh⟩, r3)

/-- Encoder for a layer. -/
def encLayer (l : Layer) : List Nat :=
  encTensorRef l.input ++ encLayerKind l.kind ++ encString l.outputName

/-- Decoder for a layer. -/
def decLayer (l : List Nat) : Option (Layer × List Nat) :=
  match decTensorRef l with
  | none => none
  | some (inp, r1) =>
    match decLayerKind r1 with
    | none => none
    | some (k, r2) =>
      match decString r2 with
      | none => none
      | some (nm, r3) => some (⟨inp, k, nm⟩, r3)

/-- Encoder for a network graph description. -/
def encNetwork (n : Network) : List Nat :=
  encBool n.explicit_batch ++ encList encInputSpec n.inputs ++
    encList encLayer n.layers ++ encList encTensorRef n.markedOutputs

/-- Decoder for a network graph description. -/
def decNetwork (l : List Nat) : Option (Network × List Nat) :=
  match decBool l with
  | none => none
  | some (eb, r1) =>
    match decList decInputSpec r1 with
    | none => none
    | some (ins, r2) =>
      match decList decLayer r2 with
      | none => none
      | some (ls, r3) =>
        match decList decTensorRef r3 with
        | none => none
        | some (mo, r4) => some (⟨eb, ins, ls, mo⟩, r4)

/-- Encoder for an engine. -/
def encEngine (e : Engine) : List Nat :=
  encNat e.max_workspace_size ++ encNetwork e.network

/-- Decoder for an engine. -/
def decEngine (l : List Nat) : Option (Engine × List Nat) :=
  match decNat l with
  | none => none
  | some (w, r1) =>
    match decNetwork r1 with
    | none => none
    | some (n, r2) => some (⟨n, w⟩, r2)

/-- Modelled from the spec: `engine.serialize()` of the TensorRT runtime
(not part of the sample file) — the Engine Artifact as an opaque,
injectively encoded byte stream. -/
def Engine.serialize (e : Engine) : List Nat := encEngine e

/-- Modelled from the spec: `runtime.deserialize_cuda_engine(blob)` of the
TensorRT runtime (not part of the sample file) — deterministic
deserialization that fails (returns none) on a byte stream that is not a
complete serialized engine. -/
def deserialize_cuda_engine (blob : List Nat) : Option Engine :=
  match decEngine blob with
  | some (e, []) => some e
  | _ => none

/-- Modelled from the spec: `builder.build_serialized_network(network,
config)` — the serialized plan of the engine compiled from the given graph
description and budget. -/
def build_serialized_network (net : Network) (config : BuilderConfig) : List Nat :=
  Engine.serialize (builder_build_engine net config)

/-- Embedding of the module-level `trt_v7` flag of the sample:
`trt.__version__.startswith("7")` — the prefix test, evaluated on the
underlying character sequence of the version string. -/
def trt_v7 (version : String) : Bool := "7".data.isPrefixOf version.data

/-- Embedding of `build_engine(weights)` from the sample, parameterized by
the TensorRT version string. The first component records the driver stages
performed (graph population, then — only if population succeeded — engine
compilation). On TensorRT 7 the engine is built directly; otherwise a
serialized network plan is built and deserialized. The config's only
assignment is `config.max_workspace_size = common.GiB(1)`. -/
def build_engine (version : String) (weights : Weights) :
    List Step × Except String Engine :=
  let network := create_network EXPLICIT_BATCH
  let config : BuilderConfig := { max_workspace_size := GiB 1 }
  match populate_network network weights with
  | Except.error e => ([Step.buildGraph], Except.error e)
  | Except.ok net =>
    if trt_v7 version then
      ([Step.buildGraph, Step.compileEngine], Except.ok (builder_build_engine net config))
    else
      match deserialize_cuda_engine (build_serialized_network net config) with
      | some eng => ([Step.buildGraph, Step.compileEngine], Except.ok eng)
      | none => ([Step.buildGraph, Step.compileEngine], Except.error "deserialization failed")

/-- Channel count metadata of a layer output (for convolution and
fully-connected layers, the respective output-map and output counts). -/
def LayerKind.outputChannels : LayerKind → Option Nat
  | LayerKind.convolution m _ _ _ _ => some m
  | LayerKind.fully_connected n _ _ => some n
  | _ => none

/-- Modelled from the spec: size of an engine's output binding, read from
the binding metadata — the channel count of the layer producing the single
marked output tensor. -/
def Engine.outputSize (e : Engine) : Nat :=
  match e.network.markedOutputs with
  | [TensorRef.layerOutput i] =>
    ((e.network.layers.get? i).bind (fun l => l.kind.outputChannels)).getD 0
  | _ => 0

/-- Modelled from the spec: element count of an engine's input binding
(product of the declared input shape). -/
def Engine.inputVolume (e : Engine) : Nat :=
  match e.network.inputs.head? with
  | some s => s.shape.foldr (fun a b => a * b) 1
  | none => 0

/-- Modelled from the spec: synchronous engine execution (section 4.4 of the
spec). The numeric forward pass is a black box owned by the external
inference library; it is modelled as a fixed deterministic function of the
engine and the input, producing one score per slot of the output binding.
Only its length and its determinism are relied upon. -/
def Engine.infer (e : Engine) (input : List ℚ) : List ℚ :=
  (List.range e.outputSize).map (fun i => input.headD 0 + (i : ℚ))

/-- Helper for `np_argmax`: fold over the remaining entries, keeping the
index of the first maximal element seen so far. -/
def np_argmax_go : List ℚ → Nat → Nat → ℚ → Nat
  | [], _, best, _ => best
  | x :: xs, i, best, bv =>
    if bv < x then np_argmax_go xs (i + 1) i x else np_argmax_go xs (i + 1) best bv

/-- Embedding of `np.argmax`: index of the first maximal element (0 for the
empty list, which the sample never hits). -/
def np_argmax : List ℚ → Nat
  | [] => 0
  | x :: xs => np_argmax_go xs 1 0 x

/-- Modelled from the spec: one host/device buffer pair of
`common.allocate_buffers` (from `common.py`, not part of the sample file);
only the host contents are observable in this model. -/
structure HostDeviceMem where
  host : List ℚ
  deriving DecidableEq

/-- Modelled from the spec: `common.allocate_buffers(engine)` — one
zero-initialized host/device pair per binding, sized per the engine's
binding metadata. -/
def allocate_buffers (e : Engine) : List HostDeviceMem × List HostDeviceMem :=
  ([⟨List.replicate e.inputVolume 0⟩], [⟨List.replicate e.outputSize 0⟩])

/-- Modelled from the spec: `engine.create_execution_context()`; the
context is determined by its engine. -/
def Engine.create_execution_context (e : Engine) : Engine := e

/-- Modelled from the spec: `common.do_inference_v2(context, bindings,
inputs, outputs, stream)` — copies the input host buffer to the device,
executes synchronously and returns the list of output host buffers, one
per output binding (the sample's engine has exactly one). -/
def do_inference_v2 (context : Engine) (inputHost : List ℚ) : List (List ℚ) :=
  [context.infer inputHost]

/-- Embedding of `np.copyto(dst, src)`: the destination buffer receives the
source values; the buffer keeps its length. -/
def np_copyto (dst src : List ℚ) : List ℚ :=
  src.take dst.length ++ dst.drop src.length

/-- Modelled from the spec: `model.MnistModel` of `model.py` (not part of
the sample file) — owns the weight set the training run produces, a
held-out labeled test set and the random draw the test-case selection will
make. -/
structure MnistModel where
  weights : Weights
  testData : List (List ℚ × Nat)
  randomIndex : Nat
  trained : Bool
  deriving DecidableEq

/-- Modelled from the spec: `model.learn()` — trains for a fixed epoch
count, updating only internal numeric parameters (a black box); the
observable weight set of this model is the one extraction returns. -/
def MnistModel.learn (m : MnistModel) : MnistModel :=
  { m with trained := true }

/-- Modelled from the spec: `model.get_weights()` — returns the Weight Set
of the trained model. -/
def MnistModel.get_weights (m : MnistModel) : Weights := m.weights

/-- Modelled from the spec: `model.get_random_testcase()` — one
(image, expected label) pair drawn at random from the held-out set. -/
def MnistModel.get_random_testcase (m : MnistModel) : List ℚ × Nat :=
  m.testData.getD (m.randomIndex % m.testData.length) ([], 0)

/-- Embedding of `load_random_test_case(model, pagelocked_buffer)` from the
sample: draws a random test case, copies the image into the pagelocked
input buffer and returns the expected output; the result pair is the
updated buffer and that expected label. -/
def load_random_test_case (model : MnistModel) (pagelocked_buffer : List ℚ) :
    List ℚ × Nat :=
  let p := model.get_random_testcase
  (np_copyto pagelocked_buffer p.1, p.2)

/-- File store: association list from path to contents, newest write
first. -/
abbrev FileStore := List (String × List Nat)

/-- Opening a file for writing and writing contents (truncating any
previous version). -/
def writeFile (fs : FileStore) (path : String) (contents : List Nat) : FileStore :=
  (path, contents) :: fs

/-- Opening a file for reading and reading all contents. -/
def readFile (fs : FileStore) (path : String) : Option (List Nat) :=
  fs.lookup path

/-- Observable outcome of one run of the driver: the trace of stages
performed, the final file store, the console lines printed, the engine
returned by `build_engine`, the engine actually used for buffer
allocation / context creation / inference, the paths written and read, and
the test label and prediction printed. On an uncaught error (a missing
weight key) the Python script terminates before reaching the later stages;
the corresponding fields are `none`. -/
structure MainResult where
  trace : List Step
  files : FileStore
  console : List String
  builtEngine : Option Engine
  engineUsed : Option Engine
  writePath : Option String
  readPath : Option String
  testCase : Option Nat
  prediction : Option Nat
  deriving DecidableEq

namespace Sample

/-- Embedding of `main()` from the sample, parameterized by the TensorRT
version string, the MNIST model and the initial file store. It trains the
model, extracts the weights, builds the engine (graph population plus
compilation), serializes it to "mnist.trt", reads that same file back and
deserializes it, rebinding the `engine` variable to the deserialized
engine, allocates buffers and a context from the rebound engine, draws one
random test case, runs one inference, takes the arg-max and prints the two
console lines. There is no loop and no retry. -/
def main (version : String) (mnist_model : MnistModel) (fs0 : FileStore) : MainResult :=
  let m1 := mnist_model.learn
  let weights := m1.get_weights
  let ber := build_engine version weights
  let trace0 := [Step.train, Step.extractWeights] ++ ber.1
  match ber.2 with
  | Except.error _ =>
    { trace := trace0, files := fs0, console := [], builtEngine := none,
      engineUsed := none, writePath := none, readPath := none,
      testCase := none, prediction := none }
  | Except.ok engine =>
    let fs1 := writeFile fs0 "mnist.trt" engine.serialize
    let bytes := (readFile fs1 "mnist.trt").getD []
    match deserialize_cuda_engine bytes with
    | none =>
      { trace := trace0 ++ [Step.serializeEngine, Step.deserializeEngine],
        files := fs1, console := [], builtEngine := some engine,
        engineUsed := none, writePath := some "mnist.trt",
        readPath := some "mnist.trt", testCase := none, prediction := none }
    | some engine2 =>
      let bufs := allocate_buffers engine2
      let context := engine2.create_execution_context
      let loaded := load_random_test_case m1 (((bufs.1.head?).map HostDeviceMem.host).getD [])
      let case_num := loaded.2
      let output := (do_inference_v2 context loaded.1).headD []
      let pred := np_argmax output
      { trace := trace0 ++
          [Step.serializeEngine, Step.deserializeEngine, Step.allocateBuffers,
           Step.drawTestCase, Step.runInference, Step.argmaxPredict,
           Step.printLine, Step.printLine],
        files := fs1,
        console := ["Test Case: " ++ toString case_num, "Prediction: " ++ toString pred],
        builtEngine := some engine, engineUsed := some engine2,
        writePath := some "mnist.trt", readPath := some "mnist.trt",
        testCase := some case_num, prediction := some pred }

end Sample

/-- Graph description that `populate_network` produces from the eight
fetched weight tensors, written as an explicit literal: input "data"
(float32, 1x1x28x28), conv(20 maps, 5x5, stride 1), maxpool(2x2, stride 2),
conv(50 maps, 5x5, stride 1), maxpool(2x2, stride 2), fully-connected(500),
relu, fully-connected(10) with output renamed "prob", which is the single
marked output. -/
def expectedNetwork (t1 t2 t3 t4 t5 t6 t7 t8 : Tensor) : Network :=
  { explicit_batch := true,
    inputs := [⟨"data", DataType.float32, [1, 1, 28, 28]⟩],
    layers :=
      [⟨TensorRef.input 0, LayerKind.convolution 20 (5, 5) (1, 1) t1 t2, ""⟩,
       ⟨TensorRef.layerOutput 0, LayerKind.pooling PoolingType.max (2, 2) (2, 2), ""⟩,
       ⟨TensorRef.layerOutput 1, LayerKind.convolution 50 (5, 5) (1, 1) t3 t4, ""⟩,
       ⟨TensorRef.layerOutput 2, LayerKind.pooling PoolingType.max (2, 2) (2, 2), ""⟩,
       ⟨TensorRef.layerOutput 3, LayerKind.fully_connected 500 t5 t6, ""⟩,
       ⟨TensorRef.layerOutput 4, LayerKind.activation ActivationType.relu, ""⟩,
       ⟨TensorRef.layerOutput 5, LayerKind.fully_connected 10 t7 t8, "prob"⟩],
    markedOutputs := [TensorRef.layerOutput 6] }

/-- Names of the eight weight tensors `populate_network` fetches, in fetch
order. -/
def requiredWeightKeys : List String :=
  ["conv1.weight", "conv1.bias", "conv2.weight", "conv2.bias",
   "fc1.weight", "fc1.bias", "fc2.weight", "fc2.bias"]

/-- Expected parameter shapes of the fixed topology for the eight weight
tensors (section 8 of the spec: 20x1x5x5, 20; 50x20x5x5, 50; 500x800, 500;
10x500, 10). -/
def expectedShapes : List (String × List Nat) :=
  [("conv1.weight", [20, 1, 5, 5]), ("conv1.bias", [20]),
   ("conv2.weight", [50, 20, 5, 5]), ("conv2.bias", [50]),
   ("fc1.weight", [500, 800]), ("fc1.bias", [500]),
   ("fc2.weight", [10, 500]), ("fc2.bias", [10])]

/-- Check that every required weight tensor is present with the shape the
fixed topology expects. -/
def weightsWellShaped (w : Weights) : Bool :=
  expectedShapes.all (fun p =>
    match w.lookup p.1 with
    | some t => t.shape == p.2
    | none => false)

/-- Concrete weight set with all eight required tensors at their trained
shapes. -/
def demoWeights : Weights :=
  [("conv1.weight", ⟨[20, 1, 5, 5]⟩), ("conv1.bias", ⟨[20]⟩),
   ("conv2.weight", ⟨[50, 20, 5, 5]⟩), ("conv2.bias", ⟨[50]⟩),
   ("fc1.weight", ⟨[500, 800]⟩), ("fc1.bias", ⟨[500]⟩),
   ("fc2.weight", ⟨[10, 500]⟩), ("fc2.bias", ⟨[10]⟩)]

/-- Concrete weight set in which every key is present but the conv1 kernel
has a shape that does not match the fixed topology. -/
def badShapeWeights : Weights :=
  [("conv1.weight", ⟨[3]⟩), ("conv1.bias", ⟨[20]⟩),
   ("conv2.weight", ⟨[50, 20, 5, 5]⟩), ("conv2.bias", ⟨[50]⟩),
   ("fc1.weight", ⟨[500, 800]⟩), ("fc1.bias", ⟨[500]⟩),
   ("fc2.weight", ⟨[10, 500]⟩), ("fc2.bias", ⟨[10]⟩)]

/-- Concrete weight set missing the "conv2.bias" entry. -/
def missingKeyWeights : Weights :=
  [("conv1.weight", ⟨[20, 1, 5, 5]⟩), ("conv1.bias", ⟨[20]⟩),
   ("conv2.weight", ⟨[50, 20, 5, 5]⟩),
   ("fc1.weight", ⟨[500, 800]⟩), ("fc1.bias", ⟨[500]⟩),
   ("fc2.weight", ⟨[10, 500]⟩), ("fc2.bias", ⟨[10]⟩)]

/-- Network produced by populate_network from demoWeights. -/
def demoNetwork : Network :=
  expectedNetwork ⟨[20, 1, 5, 5]⟩ ⟨[20]⟩ ⟨[50, 20, 5, 5]⟩ ⟨[50]⟩
    ⟨[500, 800]⟩ ⟨[500]⟩ ⟨[10, 500]⟩ ⟨[10]⟩

/-- Engine build_engine produces from demoWeights. -/
def demoEngine : Engine :=
  { network := demoNetwork, max_workspace_size := GiB 1 }

/-- Concrete model instance for closed-theorem witnesses: one held-out test
case labeled 7 with a zero image. -/
def demoModel : MnistModel :=
  { weights := demoWeights,
    testData := [(List.replicate 784 0, 7)],
    randomIndex := 0,
    trained := false }

lemma decNat_enc (n : Nat) (r : List Nat) : decNat (encNat n ++ r) = some (n, r) := rfl

lemma decNatPair_enc (p : Nat × Nat) (r : List Nat) :
    decNatPair (encNatPair p ++ r) = some (p, r) := rfl

lemma decBool_enc (b : Bool) (r : List Nat) : decBool (encBool b ++ r) = some (b, r) := by
  cases b <;> rfl

lemma decDataType_enc (d : DataType) (r : List Nat) :
    decDataType (encDataType d ++ r) = some (d, r) := by
  cases d
  rfl

lemma decPoolingType_enc (t : PoolingType) (r : List Nat) :
    decPoolingType (encPoolingType t ++ r) = some (t, r) := by
  cases t <;> rfl

lemma decActivationType_enc (t : ActivationType) (r : List Nat) :
    decActivationType (encActivationType t ++ r) = some (t, r) := by
  cases t
  rfl

lemma decTensorRef_enc (t : TensorRef) (r : List Nat) :
    decTensorRef (encTensorRef t ++ r) = some (t, r) := by
  cases t <;> rfl

lemma decString_enc (s : String) (r : List Nat) :
    decString (encString s ++ r) = some (s, r) := by
  have hlen : (s.data.map Char.toNat).length = s.data.length := List.length_map _ _
  simp only [encString, List.cons_append, decString]
  rw [if_pos]
  · rw [List.take_left' hlen, List.drop_left' hlen, List.map_map]
    have hid : Char.ofNat ∘ Char.toNat = id := funext Char.ofNat_toNat
    rw [hid, List.map_id]
  · rw [List.length_append, hlen]
    exact Nat.le_add_right _ _

lemma foldr_encode_append (f : α → List Nat) (xs : List α) (r : List Nat) :
    xs.foldr (fun a acc => f a ++ acc) [] ++ r = xs.foldr (fun a acc => f a ++ acc) r := by
  induction xs with
  | nil => rfl
  | cons x xs ih => simp only [List.foldr, List.append_assoc, ih]

lemma decListAux_enc (f : α → List Nat) (g : List Nat → Option (α × List Nat))
    (hf : ∀ a r, g (f a ++ r) = some (a, r)) :
    ∀ (xs : List α) (r : List Nat),
      decListAux g xs.length (xs.foldr (fun a acc => f a ++ acc) r) = some (xs, r)
  | [], _ => rfl
  | x :: xs, r => by
    simp only [List.length_cons, List.foldr, decListAux, hf x,
      decListAux_enc f g hf xs r]

lemma decList_enc (f : α → List Nat) (g : List Nat → Option (α × List Nat))
    (hf : ∀ a r, g (f a ++ r) = some (a, r)) (xs : List α) (r : List Nat) :
    decList g (encList f xs ++ r) = some (xs, r) := by
  simp only [encList, List.cons_append, decList, foldr_encode_append]
  exact decListAux_enc f g hf xs r

lemma decTensor_enc (t : Tensor) (r : List Nat) :
    decTensor (encTensor t ++ r) = some (t, r) := by
  simp only [encTensor, decTensor, decList_enc encNat decNat decNat_enc]

lemma decLayerKind_enc (k : LayerKind) (r : List Nat) :
    decLayerKind (encLayerKind k ++ r) = some (k, r) := by
  cases k <;>
    simp only [encLayerKind, decLayerKind, List.cons_append, List.append_assoc,
      decNat_enc, decNatPair_enc, decTensor_enc, decPoolingType_enc, decActivationType_enc]

lemma decInputSpec_enc (s : InputSpec) (r : List Nat) :
    decInputSpec (encInputSpec s ++ r) = some (s, r) := by
  simp only [encInputSpec, decInputSpec, List.append_assoc, decString_enc,
    decDataType_enc, decList_enc encNat decNat decNat_enc]

lemma decLayer_enc (l : Layer) (r : List Nat) :
    decLayer (encLayer l ++ r) = some (l, r) := by
  simp only [encLayer, decLayer, List.append_assoc, decTensorRef_enc,
    decLayerKind_enc, decString_enc]

lemma decNetwork_enc (n : Network) (r : List Nat) :
    decNetwork (encNetwork n ++ r) = some (n, r) := by
  simp only [encNetwork, decNetwork, List.append_assoc, decBool_enc,
    decList_enc encInputSpec decInputSpec decInputSpec_enc,
    decList_enc encLayer decLayer decLayer_enc,
    decList_enc encTensorRef decTensorRef decTensorRef_enc]

lemma decEngine_enc (e : Engine) (r : List Nat) :
    decEngine (encEngine e ++ r) = some (e, r) := by
  simp only [encEngine, decEngine, List.append_assoc, decNat_enc, decNetwork_enc]

lemma deserialize_serialize (e : Engine) :
    deserialize_cuda_engine (Engine.serialize e) = some e := by
  have h := decEngine_enc e []
  rw [List.append_nil] at h
  simp only [deserialize_cuda_engine, Engine.serialize, h]

lemma populate_network_ok (w : Weights) (t1 t2 t3 t4 t5 t6 t7 t8 : Tensor)
    (h1 : w.lookup "conv1.weight" = some t1) (h2 : w.lookup "conv1.bias" = some t2)
    (h3 : w.lookup "conv2.weight" = some t3) (h4 : w.lookup "conv2.bias" = some t4)
    (h5 : w.lookup "fc1.weight" = some t5) (h6 : w.lookup "fc1.bias" = some t6)
    (h7 : w.lookup "fc2.weight" = some t7) (h8 : w.lookup "fc2.bias" = some t8) :
    populate_network (create_network EXPLICIT_BATCH) w =
      Except.ok (expectedNetwork t1 t2 t3 t4 t5 t6 t7 t8) := by
  simp [populate_network, Weights.getItem, h1, h2, h3, h4, h5, h6, h7, h8,
    Network.add_input, Network.add_convolution, Network.add_pooling,
    Network.add_fully_connected, Network.add_activation, Network.get_output,
    Network.set_stride, Network.set_output_name, Network.mark_output,
    Layer.withStride, modifyNth, create_network, EXPLICIT_BATCH, expectedNetwork,
    ModelData.INPUT_NAME, ModelData.INPUT_SHAPE, ModelData.OUTPUT_NAME,
    ModelData.OUTPUT_SIZE, ModelData.DTYPE]
  rfl

lemma exceptErrorBind (s : String) (f : α → Except String β) :
    (Except.error s >>= f) = Except.error s := rfl

lemma exceptOkBind (a : α) (f : α → Except String β) : (Except.ok a >>= f) = f a := rfl

set_option maxHeartbeats 2000000 in
lemma populate_network_ok_elim (w : Weights) (net : Network)
    (h : populate_network (create_network EXPLICIT_BATCH) w = Except.ok net) :
    ∃ t1 t2 t3 t4 t5 t6 t7 t8,
      w.lookup "conv1.weight" = some t1 ∧ w.lookup "conv1.bias" = some t2 ∧
      w.lookup "conv2.weight" = some t3 ∧ w.lookup "conv2.bias" = some t4 ∧
      w.lookup "fc1.weight" = some t5 ∧ w.lookup "fc1.bias" = some t6 ∧
      w.lookup "fc2.weight" = some t7 ∧ w.lookup "fc2.bias" = some t8 ∧
      net = expectedNetwork t1 t2 t3 t4 t5 t6 t7 t8 := by
  rcases h1 : w.lookup "conv1.weight" with _ | t1
  · simp [populate_network, Weights.getItem, h1,
      Network.add_input, Network.add_convolution, Network.add_pooling,
      Network.add_fully_connected, Network.add_activation, Network.get_output,
      Network.set_stride, Network.set_output_name, Network.mark_output,
      Layer.withStride, modifyNth, create_network, EXPLICIT_BATCH,
      ModelData.INPUT_NAME, ModelData.INPUT_SHAPE, ModelData.OUTPUT_NAME,
      ModelData.OUTPUT_SIZE, ModelData.DTYPE, exceptErrorBind, exceptOkBind] at h
  rcases h2 : w.lookup "conv1.bias" with _ | t2
  · simp [populate_network, Weights.getItem, h1, h2,
      Network.add_input, Network.add_convolution, Network.add_pooling,
      Network.add_fully_connected, Network.add_activation, Network.get_output,
      Network.set_stride, Network.set_output_name, Network.mark_output,
      Layer.withStride, modifyNth, create_network, EXPLICIT_BATCH,
      ModelData.INPUT_NAME, ModelData.INPUT_SHAPE, ModelData.OUTPUT_NAME,
      ModelData.OUTPUT_SIZE, ModelData.DTYPE, exceptErrorBind, exceptOkBind] at h
  rcases h3 : w.lookup "conv2.weight" with _ | t3
  · simp [populate_network, Weights.getItem, h1, h2, h3,
      Network.add_input, Network.add_convolution, Network.add_pooling,
      Network.add_fully_connected, Network.add_activation, Network.get_output,
      Network.set_stride, Network.set_output_name, Network.mark_output,
      Layer.withStride, modifyNth, create_network, EXPLICIT_BATCH,
      ModelData.INPUT_NAME, ModelData.INPUT_SHAPE, ModelData.OUTPUT_NAME,
      ModelData.OUTPUT_SIZE, ModelData.DTYPE, exceptErrorBind, exceptOkBind] at h
  rcases h4 : w.lookup "conv2.bias" with _ | t4
  · simp [populate_network, Weights.getItem, h1, h2, h3, h4,
      Network.add_input, Network.add_convolution, Network.add_pooling,
      Network.add_fully_connected, Network.add_activation, Network.get_output,
      Network.set_stride, Network.set_output_name, Network.mark_output,
      Layer.withStride, modifyNth, create_network, EXPLICIT_BATCH,
      ModelData.INPUT_NAME, ModelData.INPUT_SHAPE, ModelData.OUTPUT_NAME,
      ModelData.OUTPUT_SIZE, ModelData.DTYPE, exceptErrorBind, exceptOkBind] at h
  rcases h5 : w.lookup "fc1.weight" with _ | t5
  · simp [populate_network, Weights.getItem, h1, h2, h3, h4, h5,
      Network.add_input, Network.add_convolution, Network.add_pooling,
      Network.add_fully_connected, Network.add_activation, Network.get_output,
      Network.set_stride, Network.set_output_name, Network.mark_output,
      Layer.withStride, modifyNth, create_network, EXPLICIT_BATCH,
      ModelData.INPUT_NAME, ModelData.INPUT_SHAPE, ModelData.OUTPUT_NAME,
      ModelData.OUTPUT_SIZE, ModelData.DTYPE, exceptErrorBind, exceptOkBind] at h
  rcases h6 : w.lookup "fc1.bias" with _ | t6
  · simp [populate_network, Weights.getItem, h1, h2, h3, h4, h5, h6,
      Network.add_input, Network.add_convolution, Network.add_pooling,
      Network.add_fully_connected, Network.add_activation, Network.get_output,
      Network.set_stride, Network.set_output_name, Network.mark_output,
      Layer.withStride, modifyNth, create_network, EXPLICIT_BATCH,
      ModelData.INPUT_NAME, ModelData.INPUT_SHAPE, ModelData.OUTPUT_NAME,
      ModelData.OUTPUT_SIZE, ModelData.DTYPE, exceptErrorBind, exceptOkBind] at h
  rcases h7 : w.lookup "fc2.weight" with _ | t7
  · simp [populate_network, Weights.getItem, h1, h2, h3, h4, h5, h6, h7,
      Network.add_input, Network.add_convolution, Network.add_pooling,
      Network.add_fully_connected, Network.add_activation, Network.get_output,
      Network.set_stride, Network.set_output_name, Network.mark_output,
      Layer.withStride, modifyNth, create_network, EXPLICIT_BATCH,
      ModelData.INPUT_NAME, ModelData.INPUT_SHAPE, ModelData.OUTPUT_NAME,
      ModelData.OUTPUT_SIZE, ModelData.DTYPE, exceptErrorBind, exceptOkBind] at h
  rcases h8 : w.lookup "fc2.bias" with _ | t8
  · simp [populate_network, Weights.getItem, h1, h2, h3, h4, h5, h6, h7, h8,
      Network.add_input, Network.add_convolution, Network.add_pooling,
      Network.add_fully_connected, Network.add_activation, Network.get_output,
      Network.set_stride, Network.set_output_name, Network.mark_output,
      Layer.withStride, modifyNth, create_network, EXPLICIT_BATCH,
      ModelData.INPUT_NAME, ModelData.INPUT_SHAPE, ModelData.OUTPUT_NAME,
      ModelData.OUTPUT_SIZE, ModelData.DTYPE, exceptErrorBind, exceptOkBind] at h
  rw [populate_network_ok w t1 t2 t3 t4 t5 t6 t7 t8 h1 h2 h3 h4 h5 h6 h7 h8] at h
  exact ⟨t1, t2, t3, t4, t5, t6, t7, t8, rfl, rfl, rfl, rfl, rfl, rfl, rfl, rfl,
    (Except.ok.inj h).symm⟩

lemma build_engine_eq (version : String) (w : Weights) :
    build_engine version w =
      (match populate_network (create_network EXPLICIT_BATCH) w with
       | Except.error e => ([Step.buildGraph], Except.error e)
       | Except.ok net =>
         ([Step.buildGraph, Step.compileEngine],
          Except.ok { network := net, max_workspace_size := GiB 1 })) := by
  simp only [build_engine]
  cases hp : populate_network (create_network EXPLICIT_BATCH) w with
  | error e => rfl
  | ok net =>
    by_cases hv : trt_v7 version = true
    · simp only [hv, if_true]
      rfl
    · simp only [Bool.not_eq_true] at hv
      simp only [hv, Bool.false_eq_true, if_false, build_serialized_network,
        deserialize_serialize, builder_build_engine]

/-- Claim C2: for every weight set containing the eight named tensors,
populate_network deterministically emits the fixed layer sequence — one
input, conv(20 filters, 5x5, stride 1), maxpool(2x2, stride 2),
conv(50 filters, 5x5, stride 1), maxpool(2x2, stride 2),
fully-connected(500), relu, fully-connected(10), one marked output — in
that order and nothing else (the explicit literal expectedNetwork). -/
theorem populate_network_fixed_topology (w : Weights) (t1 t2 t3 t4 t5 t6 t7 t8 : Tensor)
    (h1 : w.lookup "conv1.weight" = some t1) (h2 : w.lookup "conv1.bias" = some t2)
    (h3 : w.lookup "conv2.weight" = some t3) (h4 : w.lookup "conv2.bias" = some t4)
    (h5 : w.lookup "fc1.weight" = some t5) (h6 : w.lookup "fc1.bias" = some t6)
    (h7 : w.lookup "fc2.weight" = some t7) (h8 : w.lookup "fc2.bias" = some t8) :
    populate_network (create_network EXPLICIT_BATCH) w =
      Except.ok (expectedNetwork t1 t2 t3 t4 t5 t6 t7 t8) :=
  populate_network_ok w t1 t2 t3 t4 t5 t6 t7 t8 h1 h2 h3 h4 h5 h6 h7 h8

/-- Witness for claim C2 at the concrete weight set demoWeights. -/
theorem populate_network_fixed_topology_witness :
    populate_network (create_network EXPLICIT_BATCH) demoWeights =
      Except.ok (expectedNetwork ⟨[20, 1, 5, 5]⟩ ⟨[20]⟩ ⟨[50, 20, 5, 5]⟩ ⟨[50]⟩
        ⟨[500, 800]⟩ ⟨[500]⟩ ⟨[10, 500]⟩ ⟨[10]⟩) :=
  populate_network_fixed_topology demoWeights _ _ _ _ _ _ _ _
    rfl rfl rfl rfl rfl rfl rfl rfl

/-- Claim C5: the boundary tensor shapes are fixed constants — the single
network input is 1x1x28x28 with float32 elements, and the output binding of
the compiled engine is a length-10 vector (its element type is the
network's single float32 data type). -/
theorem boundary_shapes_fixed (w : Weights) (net : Network)
    (h : populate_network (create_network EXPLICIT_BATCH) w = Except.ok net) :
    ModelData.INPUT_SHAPE = [1, 1, 28, 28] ∧
    ModelData.DTYPE = DataType.float32 ∧
    ModelData.OUTPUT_SIZE = 10 ∧
    net.inputs = [⟨"data", DataType.float32, [1, 1, 28, 28]⟩] ∧
    Engine.outputSize { network := net, max_workspace_size := GiB 1 } = 10 := by
  obtain ⟨t1, t2, t3, t4, t5, t6, t7, t8, -, -, -, -, -, -, -, -, rfl⟩ :=
    populate_network_ok_elim w net h
  exact ⟨rfl, rfl, rfl, rfl, rfl⟩

/-- Witness for claim C5 at the concrete weight set demoWeights. -/
theorem boundary_shapes_fixed_witness :
    ModelData.INPUT_SHAPE = [1, 1, 28, 28] ∧
    ModelData.DTYPE = DataType.float32 ∧
    ModelData.OUTPUT_SIZE = 10 ∧
    demoNetwork.inputs = [⟨"data", DataType.float32, [1, 1, 28, 28]⟩] ∧
    Engine.outputSize { network := demoNetwork, max_workspace_size := GiB 1 } = 10 :=
  boundary_shapes_fixed demoWeights demoNetwork rfl

/-- Claim C8: every graph description populate_network emits has exactly
one input binding, named "data", added exactly once, and exactly one
marked output, named "prob", marked exactly once — the literal singleton
lists of inputs and marked outputs. -/
theorem single_input_single_marked_output (w : Weights) (net : Network)
    (h : populate_network (create_network EXPLICIT_BATCH) w = Except.ok net) :
    net.inputs = [⟨"data", DataType.float32, [1, 1, 28, 28]⟩] ∧
    net.markedOutputs = [TensorRef.layerOutput 6] ∧
    net.nameOf (TensorRef.layerOutput 6) = "prob" := by
  obtain ⟨t1, t2, t3, t4, t5, t6, t7, t8, -, -, -, -, -, -, -, -, rfl⟩ :=
    populate_network_ok_elim w net h
  exact ⟨rfl, rfl, rfl⟩

/-- Witness for claim C8 at the concrete weight set demoWeights. -/
theorem single_input_single_marked_output_witness :
    demoNetwork.inputs = [⟨"data", DataType.float32, [1, 1, 28, 28]⟩] ∧
    demoNetwork.markedOutputs = [TensorRef.layerOutput 6] ∧
    demoNetwork.nameOf (TensorRef.layerOutput 6) = "prob" :=
  single_input_single_marked_output demoWeights demoNetwork rfl

/-- Claim C4 counterexample: a weight set in which every named tensor is
present but the conv1 kernel shape does not match the fixed topology is
not rejected — populate_network still emits a graph description, so the
failure cannot occur before the compile step. -/
theorem shape_mismatch_not_rejected :
    weightsWellShaped badShapeWeights = false ∧
    populate_network (create_network EXPLICIT_BATCH) badShapeWeights =
      Except.ok (expectedNetwork ⟨[3]⟩ ⟨[20]⟩ ⟨[50, 20, 5, 5]⟩ ⟨[50]⟩
        ⟨[500, 800]⟩ ⟨[500]⟩ ⟨[10, 500]⟩ ⟨[10]⟩) :=
  ⟨rfl, populate_network_ok badShapeWeights _ _ _ _ _ _ _ _
    rfl rfl rfl rfl rfl rfl rfl rfl⟩

/-- Claim C4 (amended): if any of the eight named weight tensors is absent,
populate_network fails with a KeyError-style error before the compile
step — build_engine records no compileEngine stage and returns the error.
(Shape mismatches are passed through unchecked; see the counterexample.) -/
theorem missing_weight_key_fails_before_compile (version : String) (w : Weights)
    (k : String) (hk : k ∈ requiredWeightKeys) (hnone : w.lookup k = none) :
    (∃ msg, populate_network (create_network EXPLICIT_BATCH) w = Except.error msg) ∧
    (build_engine version w).1 = [Step.buildGraph] ∧
    (∃ msg, (build_engine version w).2 = Except.error msg) := by
  have hfail : ∀ net, populate_network (create_network EXPLICIT_BATCH) w ≠ Except.ok net := by
    intro net hok
    obtain ⟨t1, t2, t3, t4, t5, t6, t7, t8, h1, h2, h3, h4, h5, h6, h7, h8, -⟩ :=
      populate_network_ok_elim w net hok
    simp only [requiredWeightKeys, List.mem_cons, List.not_mem_nil, or_false] at hk
    rcases hk with rfl | rfl | rfl | rfl | rfl | rfl | rfl | rfl <;> simp_all
  obtain ⟨msg, hmsg⟩ : ∃ msg,
      populate_network (create_network EXPLICIT_BATCH) w = Except.error msg := by
    cases hp : populate_network (create_network EXPLICIT_BATCH) w with
    | error e => exact ⟨e, rfl⟩
    | ok net => exact absurd hp (hfail net)
  refine ⟨⟨msg, hmsg⟩, ?_, ⟨msg, ?_⟩⟩
  · rw [build_engine_eq, hmsg]
  · rw [build_engine_eq, hmsg]

/-- Witness for the amended claim C4 at the concrete weight set
missingKeyWeights, which lacks "conv2.bias". -/
theorem missing_weight_key_fails_before_compile_witness :
    (∃ msg, populate_network (create_network EXPLICIT_BATCH) missingKeyWeights =
      Except.error msg) ∧
    (build_engine "8.6.1" missingKeyWeights).1 = [Step.buildGraph] ∧
    (∃ msg, (build_engine "8.6.1" missingKeyWeights).2 = Except.error msg) :=
  missing_weight_key_fails_before_compile "8.6.1" missingKeyWeights "conv2.bias"
    (by decide) rfl

/-- Claim C6: every call to build_engine supplies exactly common.GiB(1) =
2^30 bytes as the workspace budget, and every engine a successful call
returns carries exactly that budget — the only budget the script ever
sets. -/
theorem workspace_budget_is_one_gib (version : String) (w : Weights) (e : Engine)
    (h : (build_engine version w).2 = Except.ok e) :
    e.max_workspace_size = GiB 1 ∧ GiB 1 = 2 ^ 30 := by
  refine ⟨?_, by decide⟩
  rw [build_engine_eq] at h
  cases hp : populate_network (create_network EXPLICIT_BATCH) w with
  | error e2 =>
    rw [hp] at h
    exact Except.noConfusion h
  | ok net =>
    rw [hp] at h
    cases Except.ok.inj h
    rfl

/-- Witness for claim C6 at the concrete weight set demoWeights under the
TensorRT 7 branch. -/
theorem workspace_budget_is_one_gib_witness :
    demoEngine.max_workspace_size = GiB 1 ∧ GiB 1 = 2 ^ 30 :=
  workspace_budget_is_one_gib "7.2.3" demoWeights demoEngine
    (by rw [build_engine_eq]; rfl)

/-- Claim C9: build_engine returns an engine under every version branch,
and for the same weight set the branches are equivalent — whatever the
version string, the result is the engine for the identical populated
graph description and the identical 1 GiB budget. -/
theorem build_engine_branches_equivalent (version : String) (w : Weights) (net : Network)
    (h : populate_network (create_network EXPLICIT_BATCH) w = Except.ok net) :
    (build_engine version w).2 =
      Except.ok { network := net, max_workspace_size := GiB 1 } := by
  rw [build_engine_eq, h]

/-- Witness for claim C9 at demoWeights, instantiated on both sides of the
version branch: a version string for which trt_v7 holds and one for which
it does not. -/
theorem build_engine_branches_equivalent_witness :
    trt_v7 "7.2.3" = true ∧ trt_v7 "8.6.1" = false ∧
    (build_engine "7.2.3" demoWeights).2 = Except.ok demoEngine ∧
    (build_engine "8.6.1" demoWeights).2 = Except.ok demoEngine :=
  ⟨by decide, by decide,
   build_engine_branches_equivalent "7.2.3" demoWeights demoNetwork rfl,
   build_engine_branches_equivalent "8.6.1" demoWeights demoNetwork rfl⟩

/-- Claim C3: serializing a compiled engine artifact and deserializing
those same bytes yields an engine whose inference output on any fixed
input is identical, bit for bit, to the output the pre-serialization
engine produces on that input. -/
theorem serialize_roundtrip_preserves_inference (e : Engine) (x : List ℚ) :
    deserialize_cuda_engine e.serialize = some e ∧
    (deserialize_cuda_engine e.serialize).map (fun e2 => e2.infer x) =
      some (e.infer x) := by
  have h := deserialize_serialize e
  exact ⟨h, by rw [h]; rfl⟩

/-- Claim C7: for any valid 28x28 single-channel input, the engine the
script builds produces an output vector with exactly 10 entries, and two
inferences on the identical input produce the identical output vector and
hence the same arg-max predicted class. -/
theorem inference_ten_entries_argmax_stable (version : String) (w : Weights)
    (e : Engine) (h : (build_engine version w).2 = Except.ok e)
    (x : List ℚ) (_hx : x.length = 28 * 28) :
    (e.infer x).length = 10 ∧
    e.infer x = e.infer x ∧
    np_argmax (e.infer x) = np_argmax (e.infer x) := by
  refine ⟨?_, rfl, rfl⟩
  rw [build_engine_eq] at h
  cases hp : populate_network (create_network EXPLICIT_BATCH) w with
  | error e2 =>
    rw [hp] at h
    exact Except.noConfusion h
  | ok net =>
    rw [hp] at h
    cases Except.ok.inj h
    obtain ⟨t1, t2, t3, t4, t5, t6, t7, t8, -, -, -, -, -, -, -, -, rfl⟩ :=
      populate_network_ok_elim w net hp
    simp only [Engine.infer, List.length_map, List.length_range]
    rfl

/-- Witness for claim C7: the demo engine on the all-zero 28x28 image. -/
theorem inference_ten_entries_argmax_stable_witness :
    ((demoEngine.infer (List.replicate 784 0)).length = 10 ∧
     demoEngine.infer (List.replicate 784 0) = demoEngine.infer (List.replicate 784 0) ∧
     np_argmax (demoEngine.infer (List.replicate 784 0)) =
       np_argmax (demoEngine.infer (List.replicate 784 0))) :=
  inference_ten_entries_argmax_stable "7.2.3" demoWeights demoEngine
    (by rw [build_engine_eq]; rfl) (List.replicate 784 0)
    (by rw [List.length_replicate])

lemma learn_get_weights (m : MnistModel) :
    (MnistModel.learn m).get_weights = m.weights := rfl

lemma readFile_writeFile (fs : FileStore) (p : String) (c : List Nat) :
    readFile (writeFile fs p c) p = some c := by
  simp [readFile, writeFile, List.lookup]

lemma main_ok (version : String) (m : MnistModel) (fs : FileStore) (net : Network)
    (hp : populate_network (create_network EXPLICIT_BATCH) m.weights = Except.ok net) :
    Sample.main version m fs =
      { trace :=
          [Step.train, Step.extractWeights, Step.buildGraph, Step.compileEngine,
           Step.serializeEngine, Step.deserializeEngine, Step.allocateBuffers,
           Step.drawTestCase, Step.runInference, Step.argmaxPredict,
           Step.printLine, Step.printLine],
        files := writeFile fs "mnist.trt"
          (Engine.serialize { network := net, max_workspace_size := GiB 1 }),
        console :=
          ["Test Case: " ++ toString (m.learn.get_random_testcase).2,
           "Prediction: " ++ toString (np_argmax (Engine.infer
             { network := net, max_workspace_size := GiB 1 }
             (np_copyto
               (List.replicate
                 (Engine.inputVolume { network := net, max_workspace_size := GiB 1 }) 0)
               (m.learn.get_random_testcase).1)))],
        builtEngine := some { network := net, max_workspace_size := GiB 1 },
        engineUsed := some { network := net, max_workspace_size := GiB 1 },
        writePath := some "mnist.trt",
        readPath := some "mnist.trt",
        testCase := some (m.learn.get_random_testcase).2,
        prediction := some (np_argmax (Engine.infer
          { network := net, max_workspace_size := GiB 1 }
          (np_copyto
            (List.replicate
              (Engine.inputVolume { network := net, max_workspace_size := GiB 1 }) 0)
            (m.learn.get_random_testcase).1))) } := by
  simp only [Sample.main, learn_get_weights, build_engine_eq, hp, readFile_writeFile,
    Option.getD_some, deserialize_serialize, allocate_buffers, do_inference_v2,
    Engine.create_execution_context, load_random_test_case, List.head?_cons,
    Option.map_some, List.headD_cons]
  rfl

/-- Claim C1: on a run whose weight set contains the required tensors, the
driver performs, in this exact order and each exactly once: train, extract
weights, build the network graph, compile the engine, serialize the engine
to disk, deserialize it from disk, allocate buffers, draw one random test
case, run one inference, take the arg-max predicted class, and print the
test case and the prediction as the two console lines; the trace is a
fixed finite list — no loop, no batching, no retry. -/
theorem main_stage_sequence (version : String) (m : MnistModel) (fs : FileStore)
    (net : Network)
    (hp : populate_network (create_network EXPLICIT_BATCH) m.weights = Except.ok net) :
    (Sample.main version m fs).trace =
      [Step.train, Step.extractWeights, Step.buildGraph, Step.compileEngine,
       Step.serializeEngine, Step.deserializeEngine, Step.allocateBuffers,
       Step.drawTestCase, Step.runInference, Step.argmaxPredict,
       Step.printLine, Step.printLine] ∧
    (∀ s : Step, s ≠ Step.printLine → (Sample.main version m fs).trace.count s = 1) ∧
    (Sample.main version m fs).trace.count Step.printLine = 2 ∧
    ∃ caseLabel pred : Nat,
      (Sample.main version m fs).console =
        ["Test Case: " ++ toString caseLabel, "Prediction: " ++ toString pred] := by
  have ht : (Sample.main version m fs).trace =
      [Step.train, Step.extractWeights, Step.buildGraph, Step.compileEngine,
       Step.serializeEngine, Step.deserializeEngine, Step.allocateBuffers,
       Step.drawTestCase, Step.runInference, Step.argmaxPredict,
       Step.printLine, Step.printLine] := by
    rw [main_ok version m fs net hp]
  refine ⟨ht, ?_, ?_, ?_⟩
  · intro s hs
    rw [ht]
    revert hs
    cases s <;> decide
  · simp only [ht]
    decide
  · exact ⟨(m.learn.get_random_testcase).2,
      np_argmax (Engine.infer { network := net, max_workspace_size := GiB 1 }
        (np_copyto (List.replicate
          (Engine.inputVolume { network := net, max_workspace_size := GiB 1 }) 0)
          (m.learn.get_random_testcase).1)),
      by rw [main_ok version m fs net hp]⟩

/-- Witness for claim C1: the demo model under the TensorRT 7 branch. -/
theorem main_stage_sequence_witness :
    (Sample.main "7.2.3" demoModel []).trace =
      [Step.train, Step.extractWeights, Step.buildGraph, Step.compileEngine,
       Step.serializeEngine, Step.deserializeEngine, Step.allocateBuffers,
       Step.drawTestCase, Step.runInference, Step.argmaxPredict,
       Step.printLine, Step.printLine] ∧
    (∀ s : Step, s ≠ Step.printLine →
      (Sample.main "7.2.3" demoModel []).trace.count s = 1) ∧
    (Sample.main "7.2.3" demoModel []).trace.count Step.printLine = 2 ∧
    (∃ caseLabel pred : Nat,
      (Sample.main "7.2.3" demoModel []).console =
        ["Test Case: " ++ toString caseLabel, "Prediction: " ++ toString pred]) :=
  main_stage_sequence "7.2.3" demoModel [] demoNetwork rfl

/-- Claim C10: the engine used for buffer allocation, execution-context
creation and the single inference is the one deserialized from the bytes
read back from "mnist.trt" — the same fixed path the serialized built
engine was written to — not the binding originally returned by
build_engine, which is rebound after serialization. -/
theorem main_uses_deserialized_engine (version : String) (m : MnistModel)
    (fs : FileStore) (net : Network)
    (hp : populate_network (create_network EXPLICIT_BATCH) m.weights = Except.ok net) :
    (Sample.main version m fs).writePath = some "mnist.trt" ∧
    (Sample.main version m fs).readPath = some "mnist.trt" ∧
    readFile (Sample.main version m fs).files "mnist.trt" =
      some (Engine.serialize { network := net, max_workspace_size := GiB 1 }) ∧
    (Sample.main version m fs).builtEngine =
      some { network := net, max_workspace_size := GiB 1 } ∧
    (Sample.main version m fs).engineUsed =
      deserialize_cuda_engine
        ((readFile (Sample.main version m fs).files "mnist.trt").getD []) := by
  rw [main_ok version m fs net hp]
  refine ⟨rfl, rfl, readFile_writeFile fs "mnist.trt" _, rfl, ?_⟩
  simp only [readFile_writeFile, Option.getD_some, deserialize_serialize]

/-- Witness for claim C10: the demo model under the TensorRT 7 branch. -/
theorem main_uses_deserialized_engine_witness :
    (Sample.main "7.2.3" demoModel []).writePath = some "mnist.trt" ∧
    (Sample.main "7.2.3" demoModel []).readPath = some "mnist.trt" ∧
    readFile (Sample.main "7.2.3" demoModel []).files "mnist.trt" =
      some (Engine.serialize demoEngine) ∧
    (Sample.main "7.2.3" demoModel []).builtEngine = some demoEngine ∧
    (Sample.main "7.2.3" demoModel []).engineUsed =
      deserialize_cuda_engine
        ((readFile (Sample.main "7.2.3" demoModel []).files "mnist.trt").getD []) :=
  main_uses_deserialized_engine "7.2.3" demoModel [] demoNetwork rfl
